import Mathlib

/-!
# DocQA Engine front end: session orchestration core

A shallow embedding of `qa-frontend/src/App.js`.

* The React state of `App` (the six `useState` cells) is the record `AppState`.
* An event handler is a function from the state it is invoked on to the state
  it leaves, together with the list of HTTP requests it issued.  The handler
  reads the state of the render it belongs to; the embedding takes that to
  be the current state.
* An `async` handler is split where it first awaits the network: the part run
  synchronously (`…Begin`) and the continuation run after settlement
  (`…Settle`).  The function named after the handler runs both with nothing in
  between.
* The backend is an input: every `fetch` is given its outcome (`FetchOutcome`),
  which is a rejected promise, or a response with its `ok` flag and its body:
  a JSON object, the JSON value `null` (on which every property access
  throws), or no value at all when `response.json()` rejects.
* `Date.now()` and `new Date()` are inputs as well: an operation receives
  `clk : Nat → Tick`, and `clk k` is what the clock shows on the `k`-th call of
  `addMessage` made by that operation.
* JSON objects are typed after the backend contract: a record keeps the
  properties the program reads, each optional.
-/

namespace DocQA

/-! ## Data model -/

/-- Browser `File` object of the file picker or of a drop: the properties read by the program. -/
structure File where
  name : String
  size : Nat
deriving DecidableEq, Repr

/-- An entry of `uploadedFiles`: the properties of a backend document record that the
program reads, plus the local `name`.  `chunks` is the sequence of processed segments. -/
structure DocumentRecord where
  name : Option String
  original_filename : Option String
  size : Option Nat
  content_type : Option String
  chunks : Option (List String)
deriving DecidableEq, Repr

/-- The `metadata` object of a chunk. -/
structure Metadata where
  file_name : Option String
deriving DecidableEq, Repr

/-- One element of `chunks_used`. -/
structure Chunk where
  metadata : Option Metadata
deriving DecidableEq, Repr

/-- The four values passed as `type` to `addMessage`:
`'user'`, `'assistant'`, `'system'`, `'error'`. -/
inductive MessageType where
  | user
  | assistant
  | system
  | error
deriving DecidableEq, Repr

/-- One reading of the clock inside `addMessage`: `Date.now()` and `new Date()`. -/
structure Tick where
  now : Nat
  date : Nat
deriving DecidableEq, Repr

/-- An element of `messages`, as built by `addMessage`. -/
structure Message where
  id : Nat
  type : MessageType
  content : String
  timestamp : Nat
  chunks : Option (List Chunk)
deriving DecidableEq, Repr

/-- The state cells of `App`. -/
structure AppState where
  files : List File
  uploading : Bool
  messages : List Message
  inputMessage : String
  isLoading : Bool
  uploadedFiles : List DocumentRecord
deriving DecidableEq, Repr

/-- The state of the first render: every `useState` initial value. -/
def AppState.init : AppState :=
  { files := [], uploading := false, messages := [], inputMessage := "",
    isLoading := false, uploadedFiles := [] }

/-- The HTTP requests the program issues. -/
inductive Request where
  | getUploadedFiles
  | upload (file : File)
  | ask (question : String)
deriving DecidableEq, Repr

/-- How one `fetch` followed by `response.json()` ends: the promise of `fetch` rejects
(`networkError`), or a response arrives with its `ok` flag.  In `response`, `body` is the
JSON object the body parses to, and `none` when `response.json()` rejects; in `nullBody`
the body parses to the JSON value `null`, on which a property access throws a
`TypeError`. -/
inductive FetchOutcome (β : Type) where
  | networkError
  | response (ok : Bool) (body : Option β)
  | nullBody (ok : Bool)
deriving DecidableEq, Repr

/-- Body of a `/uploaded-files` response: `uploaded_files` is an object whose own
properties are listed in enumeration order. -/
structure UploadedFilesBody where
  uploaded_files : Option (List (String × DocumentRecord))
deriving DecidableEq, Repr

/-- Body of a `/upload` response: the record fields on success, `message` on rejection. -/
structure UploadBody where
  message : Option String
  name : Option String
  original_filename : Option String
  size : Option Nat
  content_type : Option String
  chunks : Option (List String)
deriving DecidableEq, Repr

/-- Body of a `/ask` response. -/
structure AskBody where
  answer : String
  chunks_used : Option (List Chunk)
deriving DecidableEq, Repr

/-! ## JavaScript primitives used by the program -/

/-- The code points `String.prototype.trim` strips: WhiteSpace and LineTerminator. -/
def isJsWhiteSpace (c : Char) : Bool :=
  decide (c.toNat ∈ [9, 10, 11, 12, 13, 32, 160, 5760, 8232, 8233, 8239, 8287, 12288, 65279])
    || (decide (8192 ≤ c.toNat) && decide (c.toNat ≤ 8202))

/-- `s.trim()`. -/
def trim (s : String) : String :=
  String.mk ((s.data.dropWhile isJsWhiteSpace).reverse.dropWhile isJsWhiteSpace).reverse

/-- `a || d` for an optional string `a` and a string `d`: `undefined` and `''` are falsy. -/
def strOr (a : Option String) (d : String) : String :=
  match a with
  | some v => if v = "" then d else v
  | none => d

/-- `a || b` for two optional strings. -/
def optOr (a b : Option String) : Option String :=
  match a with
  | some v => if v = "" then b else some v
  | none => b

/-- `prev.filter((_, i) => i !== index)`, with `k` the position of the head of the list. -/
def filterNotIndex {α : Type} (index : Nat) : Nat → List α → List α
  | _, [] => []
  | k, x :: xs =>
    if k ≠ index then x :: filterNotIndex index (k + 1) xs else filterNotIndex index (k + 1) xs

/-! ## Handlers -/

/-- The function `addMessage(type, content, chunks = null)`. -/
def addMessage (s : AppState) (t : Tick) (type : MessageType) (content : String)
    (chunks : Option (List Chunk)) : AppState :=
  { s with messages := s.messages ++
      [{ id := t.now, type := type, content := content, timestamp := t.date, chunks := chunks }] }

/-- What `loadExistingFiles` does once `fetch('/uploaded-files')` has settled. -/
def loadExistingFilesSettle (s : AppState) (o : FetchOutcome UploadedFilesBody)
    (clk : Nat → Tick) : AppState :=
  match o with
  | .response true (some data) =>
    let filesArray := ((data.uploaded_files).getD []).map Prod.snd
    let s1 := { s with uploadedFiles := filesArray }
    if filesArray.length > 0 then
      addMessage s1 (clk 0) .system
        ("Loaded " ++ toString filesArray.length ++
          " previously uploaded file(s) from your library.") none
    else s1
  | _ => s

/-- The function `loadExistingFiles`, run to settlement. -/
def loadExistingFiles (s : AppState) (o : FetchOutcome UploadedFilesBody)
    (clk : Nat → Tick) : AppState × List Request :=
  (loadExistingFilesSettle s o clk, [Request.getUploadedFiles])

/-- The function `handleFileSelect`. -/
def handleFileSelect (s : AppState) (selectedFiles : List File) : AppState :=
  { s with files := selectedFiles }

/-- The function `handleDrop`. -/
def handleDrop (s : AppState) (droppedFiles : List File) : AppState :=
  { s with files := droppedFiles }

/-- The function `removeFile`. -/
def removeFile (s : AppState) (index : Nat) : AppState :=
  { s with files := filterNotIndex index 0 s.files }

/-- The `onChange` of the question input: `setInputMessage(e.target.value)`. -/
def setInputMessage (s : AppState) (value : String) : AppState :=
  { s with inputMessage := value }

/-- The remove-file `onClick` of the document library. -/
def removeUploadedFile (s : AppState) (index : Nat) : AppState × List Request :=
  ({ s with uploadedFiles := filterNotIndex index 0 s.uploadedFiles }, [])

/-- The clear-all `onClick` of the document library. -/
def clearUploadedFiles (s : AppState) : AppState × List Request :=
  ({ s with uploadedFiles := [] }, [])

/-- The record each upload promise resolves to: `{ success, file, result }` or
`{ success, file, error }`. -/
structure UploadResult where
  success : Bool
  file : File
  result : Option UploadBody
  error : Option String
deriving DecidableEq, Repr

/-- The `async (file) => …` callback of `files.map` in `uploadFiles`, given how the
`fetch('/upload')` of that file ends.  A rejected `fetch`, a rejected `response.json()`
and the `TypeError` of `result.message` on a `null` body all land in the `catch`.  On an
OK response the body is returned as `result` without being read, so a `null` body is a
success whose `result` has no property. -/
def uploadPromise (file : File) : FetchOutcome UploadBody → UploadResult
  | .response true (some result) =>
    { success := true, file := file, result := some result, error := none }
  | .response false (some result) =>
    { success := false, file := file, result := none,
      error := some (strOr result.message "Upload failed") }
  | .response _ none =>
    { success := false, file := file, result := none, error := some "Network error" }
  | .nullBody true =>
    { success := true, file := file, result := none, error := none }
  | .nullBody false =>
    { success := false, file := file, result := none, error := some "Network error" }
  | .networkError =>
    { success := false, file := file, result := none, error := some "Network error" }

/-- The object `{ name: r.file.name, ...r.result }`: a `name` of the result overrides the
local one; the properties of the result that the program never reads are left out.  A
`null` result (`none`) spreads to nothing. -/
def registryEntry (r : UploadResult) : DocumentRecord :=
  match r.result with
  | some result =>
    { name := (result.name).orElse (fun _ => some r.file.name),
      original_filename := result.original_filename,
      size := result.size,
      content_type := result.content_type,
      chunks := result.chunks }
  | none =>
    { name := some r.file.name, original_filename := none, size := none,
      content_type := none, chunks := none }

/-- A template-literal hole holding an optional string. -/
def templ (v : Option String) : String :=
  v.getD "undefined"

/-- The loop `failed.forEach(f => addMessage('error', …))`; `k` counts the calls of
`addMessage` made so far by the operation. -/
def forEachFailed (clk : Nat → Tick) : Nat → List UploadResult → AppState → AppState
  | _, [], s => s
  | k, f :: fs, s =>
    forEachFailed clk (k + 1) fs
      (addMessage s (clk k) .error
        ("Failed to upload " ++ f.file.name ++ ": " ++ templ f.error) none)

/-- The part of `uploadFiles` run before `await Promise.all(uploadPromises)`: the guard,
`setUploading(true)`, and one `fetch('/upload')` per selected file. -/
def uploadFilesBegin (s : AppState) : AppState × List Request :=
  if s.files.length = 0 then (s, [])
  else ({ s with uploading := true }, s.files.map Request.upload)

/-- What `uploadFiles` does after `await Promise.all(uploadPromises)`; `results` is in the
order of the batch, which is the order `Promise.all` resolves to. -/
def uploadFilesSettle (s : AppState) (results : List UploadResult) (clk : Nat → Tick) :
    AppState :=
  let successful := results.filter (fun r => r.success)
  let failed := results.filter (fun r => !r.success)
  let s1 :=
    if successful.length > 0 then
      addMessage { s with uploadedFiles := s.uploadedFiles ++ successful.map registryEntry }
        (clk 0) .system
        ("Successfully uploaded " ++ toString successful.length ++ " file(s)!") none
    else s
  let s2 :=
    if failed.length > 0 then
      forEachFailed clk (if successful.length > 0 then 1 else 0) failed s1
    else s1
  { s2 with files := [], uploading := false }

/-- The function `uploadFiles`, run to settlement; `outcomes` gives, in batch order, how the
upload of each selected file ends. -/
def uploadFiles (s : AppState) (outcomes : List (FetchOutcome UploadBody))
    (clk : Nat → Tick) : AppState × List Request :=
  if s.files.length = 0 then (s, [])
  else
    let s1 := { s with uploading := true }
    let results := List.zipWith uploadPromise s.files outcomes
    (uploadFilesSettle s1 results clk, s.files.map Request.upload)

/-- The part of `sendMessage` run before the first `await`: the new state, the requests
issued, and the captured `userMessage` when the question was accepted. -/
def sendMessageBegin (s : AppState) (t : Tick) : AppState × List Request × Option String :=
  if (trim s.inputMessage = "") || s.isLoading then (s, [], none)
  else
    let userMessage := s.inputMessage
    let s1 := addMessage { s with inputMessage := "" } t .user userMessage none
    ({ s1 with isLoading := true }, [Request.ask userMessage], some userMessage)

/-- The part of `sendMessage` run once `fetch('/ask')` has settled.  On an OK response with
a `null` body `result.answer` throws, which lands in the `catch`; on a non-OK response the
body is not read. -/
def sendMessageSettle (s : AppState) (o : FetchOutcome AskBody) (t : Tick) : AppState :=
  let s1 :=
    match o with
    | .response true (some result) => addMessage s t .assistant result.answer result.chunks_used
    | .response false (some _) => addMessage s t .error "Failed to get response from AI" none
    | .response _ none => addMessage s t .error "Network error. Please try again." none
    | .nullBody true => addMessage s t .error "Network error. Please try again." none
    | .nullBody false => addMessage s t .error "Failed to get response from AI" none
    | .networkError => addMessage s t .error "Network error. Please try again." none
  { s1 with isLoading := false }

/-- The function `sendMessage`, run to settlement. -/
def sendMessage (s : AppState) (o : FetchOutcome AskBody) (clk : Nat → Tick) :
    AppState × List Request :=
  match sendMessageBegin s (clk 0) with
  | (s1, reqs, some _) => (sendMessageSettle s1 o (clk 1), reqs)
  | (s1, reqs, none) => (s1, reqs)

/-- The function `handleKeyPress`. -/
def handleKeyPress (s : AppState) (key : String) (shiftKey : Bool) (o : FetchOutcome AskBody)
    (clk : Nat → Tick) : AppState × List Request :=
  if key = "Enter" && !shiftKey then sendMessage s o clk else (s, [])

/-! ## Rendering: the parts of the returned markup that decide behaviour -/

/-- The `disabled` attribute of the question input. -/
def inputDisabled (s : AppState) : Bool :=
  s.isLoading || s.uploadedFiles.length = 0

/-- The `disabled` attribute of the send button. -/
def sendDisabled (s : AppState) : Bool :=
  (trim s.inputMessage = "") || s.isLoading || s.uploadedFiles.length = 0

/-- A click on the send button: a disabled button runs no `onClick`. -/
def clickSend (s : AppState) (o : FetchOutcome AskBody) (clk : Nat → Tick) :
    AppState × List Request :=
  if sendDisabled s then (s, []) else sendMessage s o clk

/-- A key press event on the question input: `onKeyPress={handleKeyPress}`. -/
def keyPressInput (s : AppState) (key : String) (shiftKey : Bool) (o : FetchOutcome AskBody)
    (clk : Nat → Tick) : AppState × List Request :=
  handleKeyPress s key shiftKey o clk

/-- The heading of a library card: `file.original_filename || file.name`. -/
def displayName (file : DocumentRecord) : Option String :=
  optOr file.original_filename file.name

/-- The text of one source line: `chunk.metadata?.file_name || 'Unknown source'`. -/
def sourceLabel (chunk : Chunk) : String :=
  strOr ((chunk.metadata).bind (fun m => m.file_name)) "Unknown source"

/-- The source lines rendered under a message:
`message.chunks && message.chunks.length > 0 && message.chunks.slice(0, 2).map(…)`. -/
def renderedSources (message : Message) : List String :=
  match message.chunks with
  | some chunks => if chunks.length > 0 then (chunks.take 2).map sourceLabel else []
  | none => []

/-! ## The operations as one type -/

/-- Every way the state of `App` changes: the handlers, the continuations of the three
asynchronous handlers (which may run on any later state), the part of `uploadFiles` run
before its `await`, and the user gestures on the question controls. -/
inductive Op where
  | addMessage (t : Tick) (type : MessageType) (content : String) (chunks : Option (List Chunk))
  | loadExistingFiles (o : FetchOutcome UploadedFilesBody) (clk : Nat → Tick)
  | handleFileSelect (selectedFiles : List File)
  | handleDrop (droppedFiles : List File)
  | removeFile (index : Nat)
  | setInputMessage (value : String)
  | uploadFiles (outcomes : List (FetchOutcome UploadBody)) (clk : Nat → Tick)
  | uploadFilesSettle (results : List UploadResult) (clk : Nat → Tick)
  | uploadFilesBegin
  | sendMessage (o : FetchOutcome AskBody) (clk : Nat → Tick)
  | sendMessageBegin (t : Tick)
  | sendMessageSettle (o : FetchOutcome AskBody) (t : Tick)
  | handleKeyPress (key : String) (shiftKey : Bool) (o : FetchOutcome AskBody) (clk : Nat → Tick)
  | clickSend (o : FetchOutcome AskBody) (clk : Nat → Tick)
  | keyPressInput (key : String) (shiftKey : Bool) (o : FetchOutcome AskBody) (clk : Nat → Tick)
  | removeUploadedFile (index : Nat)
  | clearUploadedFiles

/-- Run one operation: the state it leaves and the requests it issued. -/
def run (s : AppState) : Op → AppState × List Request
  | .addMessage t type content chunks => (addMessage s t type content chunks, [])
  | .loadExistingFiles o clk => loadExistingFiles s o clk
  | .handleFileSelect fs => (handleFileSelect s fs, [])
  | .handleDrop fs => (handleDrop s fs, [])
  | .removeFile index => (removeFile s index, [])
  | .setInputMessage value => (setInputMessage s value, [])
  | .uploadFiles outcomes clk => uploadFiles s outcomes clk
  | .uploadFilesSettle results clk => (uploadFilesSettle s results clk, [])
  | .uploadFilesBegin => uploadFilesBegin s
  | .sendMessage o clk => sendMessage s o clk
  | .sendMessageBegin t => ((sendMessageBegin s t).1, (sendMessageBegin s t).2.1)
  | .sendMessageSettle o t => (sendMessageSettle s o t, [])
  | .handleKeyPress key shiftKey o clk => handleKeyPress s key shiftKey o clk
  | .clickSend o clk => clickSend s o clk
  | .keyPressInput key shiftKey o clk => keyPressInput s key shiftKey o clk
  | .removeUploadedFile index => removeUploadedFile s index
  | .clearUploadedFiles => clearUploadedFiles s

/-! ## Settlement order of a batch -/

/-- The resolve-element steps of `Promise.all`: each settlement `(i, v)`, taken in the order
in which the promises settle, stores `v` in slot `i` of the values array. -/
def promiseAllFill {α : Type} : List (Option α) → List (Nat × α) → List (Option α)
  | values, [] => values
  | values, (i, v) :: rest => promiseAllFill (values.set i (some v)) rest

/-- `await Promise.all(promises)` for `n` promises none of which rejects: `settled` lists the
settlements in chronological order; the result is the values array, in the positions of the
promises, once every slot is filled, and `none` while a promise is still pending. -/
def promiseAll {α : Type} (n : Nat) (settled : List (Nat × α)) : Option (List α) :=
  let values := promiseAllFill (List.replicate n none) settled
  if values.all Option.isSome then some (values.filterMap id) else none

/-- The function `uploadFiles` with the order of settlement made explicit: `order` lists the
positions of the batch in the order in which their uploads settle, `outcomes` gives, by
position, how each upload ends.  While some upload is pending the function stays at its
`await`, with `uploading` set. -/
def uploadFilesSettledIn (s : AppState) (order : List Nat)
    (outcomes : List (FetchOutcome UploadBody)) (clk : Nat → Tick) : AppState × List Request :=
  if s.files.length = 0 then (s, [])
  else
    let s1 := { s with uploading := true }
    let uploadPromises := List.zipWith uploadPromise s.files outcomes
    match promiseAll uploadPromises.length
        (order.filterMap (fun i => (uploadPromises[i]?).map (fun r => (i, r)))) with
    | some results => (uploadFilesSettle s1 results clk, s.files.map Request.upload)
    | none => (s1, s.files.map Request.upload)

/-! ## Vocabulary of the statements -/

/-- Number of turns of type `'error'` in a timeline. -/
def errorCount (ms : List Message) : Nat :=
  ms.countP (fun m => m.type = MessageType.error)

/-- A failed upload as the code decides it: no response arrives, the response is not OK, or
its body cannot be read as JSON.  An upload succeeds when an OK response arrives whose
body can be read. -/
def uploadFails : FetchOutcome UploadBody → Bool
  | .networkError => true
  | .response ok body => !ok || body.isNone
  | .nullBody ok => !ok

/-- A failed upload as the specification words it: a network error or a non-OK response. -/
def claimedUploadFails : FetchOutcome UploadBody → Bool
  | .networkError => true
  | .response ok _ => !ok
  | .nullBody ok => !ok

/-- The turns `failed.forEach` appends, as a list: one `'error'` turn per element. -/
def errorTurns (clk : Nat → Tick) : Nat → List UploadResult → List Message
  | _, [] => []
  | k, f :: fs =>
    { id := (clk k).now, type := MessageType.error,
      content := "Failed to upload " ++ f.file.name ++ ": " ++ templ f.error,
      timestamp := (clk k).date, chunks := none } :: errorTurns clk (k + 1) fs

/-- The `'system'` turn announcing `n` successful uploads. -/
def uploadedTurn (t : Tick) (n : Nat) : Message :=
  { id := t.now, type := MessageType.system,
    content := "Successfully uploaded " ++ toString n ++ " file(s)!",
    timestamp := t.date, chunks := none }

/-- The `/ask` call yields an answer: an OK response whose body could be read and is not
`null`. -/
def askAnswered : FetchOutcome AskBody → Bool
  | .response true (some _) => true
  | _ => false

/-- The `'system'` turn announcing `n` documents found at start-up. -/
def loadedTurn (t : Tick) (n : Nat) : Message :=
  { id := t.now, type := MessageType.system,
    content := "Loaded " ++ toString n ++ " previously uploaded file(s) from your library.",
    timestamp := t.date, chunks := none }

/-- The reason of a failed upload as the specification words it: "Network error" when no
response was received, and for a response its message when it has one, "Upload failed"
when the message is absent. -/
def claimedReason : FetchOutcome UploadBody → String
  | .networkError => "Network error"
  | .response _ (some body) => strOr body.message "Upload failed"
  | .response _ none => "Upload failed"
  | .nullBody _ => "Upload failed"

/-- The registry entries of a batch as the specification words them: one entry per
successful upload, in the order in which the uploads settled. -/
def entriesInSettlementOrder (files : List File) (order : List Nat)
    (outcomes : List (FetchOutcome UploadBody)) : List DocumentRecord :=
  order.filterMap (fun i =>
    match files[i]?, outcomes[i]? with
    | some file, some o =>
      if uploadFails o then none else some (registryEntry (uploadPromise file o))
    | _, _ => none)

/-- The registry entries of a batch in batch order: one entry per successful upload, in the
order of the selected files. -/
def entriesInBatchOrder (files : List File) (outcomes : List (FetchOutcome UploadBody)) :
    List DocumentRecord :=
  ((files.zip outcomes).filter (fun p => !uploadFails p.2)).map
    (fun p => registryEntry (uploadPromise p.1 p.2))

/-- A state met while a batch is being uploaded: one document is loaded, the question `"q"`
is typed, and `uploadFiles` has been started on the one selected file `a.txt`. -/
def askDuringUpload : AppState :=
  (uploadFilesBegin
    { AppState.init with
      files := [⟨"a.txt", 1⟩],
      inputMessage := "q",
      uploadedFiles := [⟨some "old.txt", none, none, none, none⟩] }).1

/-! ## Lemmas on the upload path -/

theorem addMessage_messages (s : AppState) (t : Tick) (type : MessageType) (content : String)
    (chunks : Option (List Chunk)) :
    (addMessage s t type content chunks).messages =
      s.messages ++ [⟨t.now, type, content, t.date, chunks⟩] := rfl

theorem forEachFailed_eq (clk : Nat → Tick) (fs : List UploadResult) :
    ∀ (k : Nat) (s : AppState),
      forEachFailed clk k fs s = { s with messages := s.messages ++ errorTurns clk k fs } := by
  induction fs with
  | nil => intro k s; simp [forEachFailed, errorTurns]
  | cons f fs ih =>
    intro k s
    simp [forEachFailed, errorTurns, ih, addMessage]

theorem errorTurns_length (clk : Nat → Tick) (fs : List UploadResult) :
    ∀ k : Nat, (errorTurns clk k fs).length = fs.length := by
  induction fs with
  | nil => intro k; rfl
  | cons f fs ih => intro k; simp [errorTurns, ih]

theorem errorTurns_errorCount (clk : Nat → Tick) (fs : List UploadResult) :
    ∀ k : Nat, errorCount (errorTurns clk k fs) = fs.length := by
  induction fs with
  | nil => intro k; rfl
  | cons f fs ih =>
    intro k
    have h := ih (k + 1)
    simp only [errorCount] at h ⊢
    simp [errorTurns, h]

theorem errorCount_append (xs ys : List Message) :
    errorCount (xs ++ ys) = errorCount xs + errorCount ys := by
  simp [errorCount, List.countP_append]

/-- The state `uploadFilesSettle` leaves, in closed form. -/
theorem uploadFilesSettle_eq (s : AppState) (results : List UploadResult) (clk : Nat → Tick) :
    uploadFilesSettle s results clk =
      { s with
        files := [],
        uploading := false,
        uploadedFiles :=
          s.uploadedFiles ++ (results.filter (fun r => r.success)).map registryEntry,
        messages :=
          s.messages ++
            ((if (results.filter (fun r => r.success)).length > 0 then
                [uploadedTurn (clk 0) (results.filter (fun r => r.success)).length]
              else []) ++
             errorTurns clk (if (results.filter (fun r => r.success)).length > 0 then 1 else 0)
               (results.filter (fun r => !r.success))) } := by
  unfold uploadFilesSettle
  by_cases h1 : (results.filter (fun r => r.success)).length > 0
  · by_cases h2 : (results.filter (fun r => !r.success)).length > 0
    · simp [h1, h2, forEachFailed_eq, addMessage, uploadedTurn]
    · have h3 : results.filter (fun r => !r.success) = [] := by
        apply List.eq_nil_of_length_eq_zero; omega
      simp [h1, h3, addMessage, uploadedTurn, errorTurns]
  · have h0 : results.filter (fun r => r.success) = [] := by
      apply List.eq_nil_of_length_eq_zero; omega
    by_cases h2 : (results.filter (fun r => !r.success)).length > 0
    · simp [h0, h2, forEachFailed_eq]
    · have h3 : results.filter (fun r => !r.success) = [] := by
        apply List.eq_nil_of_length_eq_zero; omega
      simp [h0, h3, errorTurns]

theorem uploadPromise_success (file : File) (o : FetchOutcome UploadBody) :
    (uploadPromise file o).success = !uploadFails o := by
  cases o with
  | networkError => rfl
  | response ok body => cases ok <;> cases body <;> rfl
  | nullBody ok => cases ok <;> rfl

theorem uploadPromise_file (file : File) (o : FetchOutcome UploadBody) :
    (uploadPromise file o).file = file := by
  cases o with
  | networkError => rfl
  | response ok body => cases ok <;> cases body <;> rfl
  | nullBody ok => cases ok <;> rfl

theorem zipWith_failed_length :
    ∀ (files : List File) (outcomes : List (FetchOutcome UploadBody)),
      outcomes.length = files.length →
      ((List.zipWith uploadPromise files outcomes).filter (fun r => !r.success)).length =
        outcomes.countP uploadFails := by
  intro files
  induction files with
  | nil => intro outcomes h; cases outcomes with
    | nil => rfl
    | cons o os => simp at h
  | cons f fs ih =>
    intro outcomes h
    cases outcomes with
    | nil => simp at h
    | cons o os =>
      have hl : os.length = fs.length := by simpa using h
      have h1 := ih os hl
      simp only [List.zipWith_cons_cons]
      by_cases ho : uploadFails o = true
      · simp [List.filter_cons, uploadPromise_success, ho, List.countP_cons, h1]
      · have ho2 : uploadFails o = false := by simpa using ho
        simp [List.filter_cons, uploadPromise_success, ho2, List.countP_cons, h1]

theorem zipWith_successful_length :
    ∀ (files : List File) (outcomes : List (FetchOutcome UploadBody)),
      outcomes.length = files.length →
      ((List.zipWith uploadPromise files outcomes).filter (fun r => r.success)).length =
        files.length - outcomes.countP uploadFails := by
  intro files
  induction files with
  | nil => intro outcomes h; cases outcomes with
    | nil => rfl
    | cons o os => simp at h
  | cons f fs ih =>
    intro outcomes h
    cases outcomes with
    | nil => simp at h
    | cons o os =>
      have hl : os.length = fs.length := by simpa using h
      have h1 := ih os hl
      have hle : os.countP uploadFails ≤ os.length := List.countP_le_length _
      simp only [List.zipWith_cons_cons]
      by_cases ho : uploadFails o = true
      · simp [List.filter_cons, uploadPromise_success, ho, List.countP_cons, h1]
      · have ho2 : uploadFails o = false := by simpa using ho
        simp [List.filter_cons, uploadPromise_success, ho2, List.countP_cons, h1]
        omega

/-! ## Upload batches: registry growth and error turns -/

/-- C1, the claim fails.  (1) A batch of one file whose upload gets an OK response with a
body that is not JSON: no upload fails in the claim's sense (network error or non-OK
response), so `K = 0` and one entry is due, yet the registry gains no entry and the
timeline gains one error turn.  (2) A batch of one file that succeeds, with the only
registry document removed while the upload is pending: after settlement the registry is
not the registry of before the call followed by the new entry. -/
theorem uploadFiles_unreadable_ok_body_is_failure :
    ([FetchOutcome.response true none] : List (FetchOutcome UploadBody)).countP
        claimedUploadFails = 0 ∧
    (uploadFiles { AppState.init with files := [⟨"a.txt", 1⟩] }
        [FetchOutcome.response true none] (fun _ => ⟨7, 7⟩)).1.uploadedFiles = [] ∧
    errorCount (uploadFiles { AppState.init with files := [⟨"a.txt", 1⟩] }
        [FetchOutcome.response true none] (fun _ => ⟨7, 7⟩)).1.messages = 1 ∧
    (uploadFilesSettle
        (removeUploadedFile
          (uploadFilesBegin
            { AppState.init with
              files := [⟨"a.txt", 1⟩],
              uploadedFiles := [⟨some "old.txt", none, none, none, none⟩] }).1 0).1
        [uploadPromise ⟨"a.txt", 1⟩
          (FetchOutcome.response true (some ⟨none, none, none, none, none, none⟩))]
        (fun _ => ⟨7, 7⟩)).uploadedFiles = [⟨some "a.txt", none, none, none, none⟩] ∧
    (uploadFilesSettle
        (removeUploadedFile
          (uploadFilesBegin
            { AppState.init with
              files := [⟨"a.txt", 1⟩],
              uploadedFiles := [⟨some "old.txt", none, none, none, none⟩] }).1 0).1
        [uploadPromise ⟨"a.txt", 1⟩
          (FetchOutcome.response true (some ⟨none, none, none, none, none, none⟩))]
        (fun _ => ⟨7, 7⟩)).uploadedFiles ≠
      [⟨some "old.txt", none, none, none, none⟩] ++ [⟨some "a.txt", none, none, none, none⟩] := by
  decide

theorem uploadFilesSettle_counts (later : AppState) (files : List File)
    (outcomes : List (FetchOutcome UploadBody)) (clk : Nat → Tick)
    (hlen : outcomes.length = files.length) :
    (∃ added : List DocumentRecord,
      (uploadFilesSettle later (List.zipWith uploadPromise files outcomes) clk).uploadedFiles =
        later.uploadedFiles ++ added ∧
      added.length = files.length - outcomes.countP uploadFails) ∧
    errorCount (uploadFilesSettle later (List.zipWith uploadPromise files outcomes) clk).messages =
      errorCount later.messages + outcomes.countP uploadFails := by
  refine ⟨⟨((List.zipWith uploadPromise files outcomes).filter
      (fun r => r.success)).map registryEntry, ?_, ?_⟩, ?_⟩
  · simp [uploadFilesSettle_eq]
  · simp [zipWith_successful_length files outcomes hlen]
  · simp only [uploadFilesSettle_eq, errorCount_append,
      errorTurns_errorCount, zipWith_failed_length files outcomes hlen]
    split <;> simp [errorCount, uploadedTurn]

/-- C1, amended: for every state (registry and timeline), every non-empty batch of `N`
selected files and every clock, if `K` of the uploads fail (`uploadFails`: no response, a
non-OK response, or a response whose body cannot be read as JSON) and the others succeed,
then `K ≤ N` and, when `uploadFiles` settles, the registry is the registry as it stands at
that moment followed by exactly `N - K` new entries, and the timeline holds exactly `K`
more turns of type `'error'` than it does at that moment.  This is stated for the
continuation run on any later state, and for the whole function run with nothing in
between, where that moment's registry and timeline are those of the call. -/
theorem uploadFiles_registry_and_error_turns (s : AppState)
    (outcomes : List (FetchOutcome UploadBody)) (clk : Nat → Tick)
    (hne : s.files ≠ []) (hlen : outcomes.length = s.files.length) :
    (∃ added : List DocumentRecord,
      (uploadFiles s outcomes clk).1.uploadedFiles = s.uploadedFiles ++ added ∧
      added.length = s.files.length - outcomes.countP uploadFails) ∧
    outcomes.countP uploadFails ≤ s.files.length ∧
    errorCount (uploadFiles s outcomes clk).1.messages =
      errorCount s.messages + outcomes.countP uploadFails ∧
    uploadFilesBegin s = ({ s with uploading := true }, s.files.map Request.upload) ∧
    (∀ (later : AppState) (c : Nat → Tick),
      (∃ added : List DocumentRecord,
        (uploadFilesSettle later
            (List.zipWith uploadPromise s.files outcomes) c).uploadedFiles =
          later.uploadedFiles ++ added ∧
        added.length = s.files.length - outcomes.countP uploadFails) ∧
      errorCount (uploadFilesSettle later
          (List.zipWith uploadPromise s.files outcomes) c).messages =
        errorCount later.messages + outcomes.countP uploadFails) := by
  have hpos : ¬ s.files.length = 0 := by
    intro h; exact hne (List.eq_nil_of_length_eq_zero h)
  have hle : outcomes.countP uploadFails ≤ outcomes.length := List.countP_le_length _
  have hu : uploadFiles s outcomes clk =
      (uploadFilesSettle { s with uploading := true }
        (List.zipWith uploadPromise s.files outcomes) clk, s.files.map Request.upload) := by
    simp [uploadFiles, hpos]
  have hc := uploadFilesSettle_counts { s with uploading := true } s.files outcomes clk hlen
  refine ⟨?_, by omega, ?_, ?_, fun later c => uploadFilesSettle_counts later s.files outcomes c hlen⟩
  · rw [hu]; exact hc.1
  · rw [hu]; exact hc.2
  · simp [uploadFilesBegin, hpos]

/-- C1 amended, at a batch of three files of which the second gets a non-OK response: two
registry entries are added to the one present, and one error turn to the timeline. -/
theorem uploadFiles_registry_and_error_turns_witness :
    (∃ added : List DocumentRecord,
      (uploadFiles
        { AppState.init with
          files := [⟨"a.txt", 1⟩, ⟨"b.txt", 2⟩, ⟨"c.txt", 3⟩],
          uploadedFiles := [⟨some "old.txt", none, none, none, none⟩] }
        [.response true (some ⟨none, none, none, none, none, none⟩),
         .response false (some ⟨some "too big", none, none, none, none, none⟩),
         .response true (some ⟨none, none, some "c.txt", some 3, none, none⟩)]
        (fun _ => ⟨5, 5⟩)).1.uploadedFiles
        = [⟨some "old.txt", none, none, none, none⟩] ++ added ∧
      added.length = 3 - 1) ∧
    1 ≤ 3 ∧
    errorCount (uploadFiles
        { AppState.init with
          files := [⟨"a.txt", 1⟩, ⟨"b.txt", 2⟩, ⟨"c.txt", 3⟩],
          uploadedFiles := [⟨some "old.txt", none, none, none, none⟩] }
        [.response true (some ⟨none, none, none, none, none, none⟩),
         .response false (some ⟨some "too big", none, none, none, none, none⟩),
         .response true (some ⟨none, none, some "c.txt", some 3, none, none⟩)]
        (fun _ => ⟨5, 5⟩)).1.messages = 0 + 1 :=
  have h := uploadFiles_registry_and_error_turns
    { AppState.init with
      files := [⟨"a.txt", 1⟩, ⟨"b.txt", 2⟩, ⟨"c.txt", 3⟩],
      uploadedFiles := [⟨some "old.txt", none, none, none, none⟩] }
    [.response true (some ⟨none, none, none, none, none, none⟩),
     .response false (some ⟨some "too big", none, none, none, none, none⟩),
     .response true (some ⟨none, none, some "c.txt", some 3, none, none⟩)]
    (fun _ => ⟨5, 5⟩) (by simp [AppState.init]) (by simp [AppState.init])
  ⟨h.1, h.2.1, h.2.2.1⟩

/-! ## Question flow -/

/-- C2, the code at a state with an empty registry, the text `"hi"` typed and no question
in flight.  The markup computes both controls as disabled there, the registry test being
part of their `disabled` expressions; `sendMessage` has no such test: called directly, or
through `handleKeyPress` on an Enter key event of the question input, it issues one `/ask`
request, the part run before the request appends the user turn and raises the loading
flag, and after settlement the timeline has grown by two turns. -/
theorem sendMessage_empty_registry_submits :
    ({ AppState.init with inputMessage := "hi" } : AppState).uploadedFiles = [] ∧
    sendDisabled { AppState.init with inputMessage := "hi" } = true ∧
    inputDisabled { AppState.init with inputMessage := "hi" } = true ∧
    (sendMessage { AppState.init with inputMessage := "hi" }
        FetchOutcome.networkError (fun _ => ⟨7, 7⟩)).2 = [Request.ask "hi"] ∧
    (sendMessageBegin { AppState.init with inputMessage := "hi" } ⟨7, 7⟩).1.isLoading = true ∧
    (sendMessageBegin { AppState.init with inputMessage := "hi" } ⟨7, 7⟩).1.messages =
      [⟨7, MessageType.user, "hi", 7, none⟩] ∧
    (sendMessage { AppState.init with inputMessage := "hi" }
        FetchOutcome.networkError (fun _ => ⟨7, 7⟩)).1.messages =
      [⟨7, MessageType.user, "hi", 7, none⟩,
       ⟨7, MessageType.error, "Network error. Please try again.", 7, none⟩] ∧
    (keyPressInput { AppState.init with inputMessage := "hi" } "Enter" false
        FetchOutcome.networkError (fun _ => ⟨7, 7⟩)).2 = [Request.ask "hi"] ∧
    (keyPressInput { AppState.init with inputMessage := "hi" } "Enter" false
        FetchOutcome.networkError (fun _ => ⟨7, 7⟩)).1.messages =
      [⟨7, MessageType.user, "hi", 7, none⟩,
       ⟨7, MessageType.error, "Network error. Please try again.", 7, none⟩] := by
  decide

/-- C3: for every state in which a question is in flight (`isLoading` is true), every
question text, every backend outcome and every clock, `sendMessage` is a no-op: the state
it leaves is the state it was called on (same timeline, `isLoading` still true), no request
is issued, and the part run before the first `await` captures no question. -/
theorem sendMessage_while_loading_noop (s : AppState) (o : FetchOutcome AskBody)
    (clk : Nat → Tick) (h : s.isLoading = true) :
    sendMessage s o clk = (s, []) ∧
    (sendMessage s o clk).1.messages = s.messages ∧
    (sendMessage s o clk).1.isLoading = true ∧
    (sendMessage s o clk).2 = [] ∧
    sendMessageBegin s (clk 0) = (s, [], none) := by
  have hb : sendMessageBegin s (clk 0) = (s, [], none) := by simp [sendMessageBegin, h]
  have hs : sendMessage s o clk = (s, []) := by simp [sendMessage, hb]
  refine ⟨hs, ?_, ?_, ?_, hb⟩
  · rw [hs]
  · rw [hs]; exact h
  · rw [hs]

/-- C3 at a state with one document, one user turn, a question in flight and new text
typed. -/
theorem sendMessage_while_loading_noop_witness :
    sendMessage
        { AppState.init with
          messages := [⟨1, MessageType.user, "first", 1, none⟩],
          inputMessage := "second", isLoading := true,
          uploadedFiles := [⟨some "a.txt", none, none, none, none⟩] }
        (FetchOutcome.response true (some ⟨"X", none⟩)) (fun _ => ⟨7, 7⟩)
      = ({ AppState.init with
          messages := [⟨1, MessageType.user, "first", 1, none⟩],
          inputMessage := "second", isLoading := true,
          uploadedFiles := [⟨some "a.txt", none, none, none, none⟩] }, []) :=
  (sendMessage_while_loading_noop
    { AppState.init with
      messages := [⟨1, MessageType.user, "first", 1, none⟩],
      inputMessage := "second", isLoading := true,
      uploadedFiles := [⟨some "a.txt", none, none, none, none⟩] }
    (FetchOutcome.response true (some ⟨"X", none⟩)) (fun _ => ⟨7, 7⟩) rfl).1

theorem sendMessageSettle_appends_one (s : AppState) (o : FetchOutcome AskBody) (t : Tick) :
    ∃ reply : Message,
      (sendMessageSettle s o t).messages = s.messages ++ [reply] ∧
      reply.type = (if askAnswered o then MessageType.assistant else MessageType.error) ∧
      (sendMessageSettle s o t).isLoading = false := by
  cases o with
  | networkError =>
    exact ⟨⟨t.now, .error, "Network error. Please try again.", t.date, none⟩, rfl, rfl, rfl⟩
  | response ok body =>
    cases body with
    | none =>
      cases ok <;>
        exact ⟨⟨t.now, .error, "Network error. Please try again.", t.date, none⟩, rfl, rfl, rfl⟩
    | some result =>
      cases ok with
      | false =>
        exact ⟨⟨t.now, .error, "Failed to get response from AI", t.date, none⟩, rfl, rfl, rfl⟩
      | true =>
        exact ⟨⟨t.now, .assistant, result.answer, t.date, result.chunks_used⟩, rfl, rfl, rfl⟩
  | nullBody ok =>
    cases ok with
    | false =>
      exact ⟨⟨t.now, .error, "Failed to get response from AI", t.date, none⟩, rfl, rfl, rfl⟩
    | true =>
      exact ⟨⟨t.now, .error, "Network error. Please try again.", t.date, none⟩, rfl, rfl, rfl⟩

/-- C4, the claim fails.  (1) At `askDuringUpload` the question is accepted (text not
blank, no question in flight, send button enabled); the upload settles while `/ask` is
pending, and once `sendMessage` has settled the timeline is the user turn, the notice of the
upload and the assistant turn: the user turn is not immediately followed by the reply.
(2) An OK response whose body is the JSON value `null` gives a turn of type `'error'`, not
`'assistant'`. -/
theorem sendMessage_reply_not_adjacent :
    trim askDuringUpload.inputMessage ≠ "" ∧
    askDuringUpload.isLoading = false ∧
    sendDisabled askDuringUpload = false ∧
    askDuringUpload.messages = [] ∧
    (sendMessageSettle
        (uploadFilesSettle (sendMessageBegin askDuringUpload ⟨1, 1⟩).1
          [uploadPromise ⟨"a.txt", 1⟩
            (FetchOutcome.response true (some ⟨none, none, none, none, none, none⟩))]
          (fun _ => ⟨2, 2⟩))
        (FetchOutcome.response true (some ⟨"X", none⟩)) ⟨3, 3⟩).messages.map Message.type =
      [MessageType.user, MessageType.system, MessageType.assistant] ∧
    (sendMessage askDuringUpload (FetchOutcome.nullBody true)
        (fun _ => ⟨4, 4⟩)).1.messages.map Message.type =
      [MessageType.user, MessageType.error] := by
  decide

/-- C4, amended: for every accepted question (text not blank after trimming, no question
in flight), every backend outcome of the `/ask` call and every clock.  Accepting the
question appends one `'user'` turn carrying the original text, raises `isLoading` and
issues exactly one `/ask` request carrying the text.  Once the call settles, on whatever
state it then finds, exactly one turn is appended, of type `'assistant'` when an OK
response arrived whose body was read and is not `null` and of type `'error'` otherwise,
and `isLoading` is false.  When nothing else runs in between, the timeline after
settlement is the previous timeline followed by the user turn and that one turn. -/
theorem sendMessage_accepted_settles (s : AppState) (o : FetchOutcome AskBody)
    (clk : Nat → Tick) (htext : trim s.inputMessage ≠ "") (hidle : s.isLoading = false) :
    (∃ reply : Message,
      (sendMessage s o clk).1.messages =
        s.messages ++ [⟨(clk 0).now, MessageType.user, s.inputMessage, (clk 0).date, none⟩,
          reply] ∧
      reply.type = (if askAnswered o then MessageType.assistant else MessageType.error)) ∧
    (sendMessage s o clk).1.isLoading = false ∧
    (sendMessage s o clk).2 = [Request.ask s.inputMessage] ∧
    (∀ (later : AppState) (t : Tick), ∃ reply : Message,
      (sendMessageSettle later o t).messages = later.messages ++ [reply] ∧
      reply.type = (if askAnswered o then MessageType.assistant else MessageType.error) ∧
      (sendMessageSettle later o t).isLoading = false) ∧
    ((sendMessageBegin s (clk 0)).1.messages =
        s.messages ++ [⟨(clk 0).now, MessageType.user, s.inputMessage, (clk 0).date, none⟩] ∧
      (sendMessageBegin s (clk 0)).1.isLoading = true ∧
      (sendMessageBegin s (clk 0)).2.1 = [Request.ask s.inputMessage] ∧
      (sendMessageBegin s (clk 0)).2.2 = some s.inputMessage) := by
  have hb : sendMessageBegin s (clk 0) =
      ({ (addMessage { s with inputMessage := "" } (clk 0) .user s.inputMessage none) with
          isLoading := true }, [Request.ask s.inputMessage], some s.inputMessage) := by
    simp [sendMessageBegin, htext, hidle]
  have hs : sendMessage s o clk =
      (sendMessageSettle
        { (addMessage { s with inputMessage := "" } (clk 0) .user s.inputMessage none) with
          isLoading := true } o (clk 1), [Request.ask s.inputMessage]) := by
    simp [sendMessage, hb]
  obtain ⟨reply, hm, hty, hl⟩ := sendMessageSettle_appends_one
    { (addMessage { s with inputMessage := "" } (clk 0) .user s.inputMessage none) with
      isLoading := true } o (clk 1)
  refine ⟨⟨reply, ?_, hty⟩, ?_, ?_, fun later t => sendMessageSettle_appends_one later o t,
    ?_, ?_, ?_, ?_⟩
  · rw [hs]
    exact hm.trans (by simp [addMessage])
  · rw [hs]; exact hl
  · rw [hs]
  · rw [hb]; rfl
  · rw [hb]
  · rw [hb]
  · rw [hb]

/-- C4 at the question `"why?"` asked with one document loaded and answered by a
response with status 500. -/
theorem sendMessage_accepted_settles_witness :
    ∃ reply : Message,
      (sendMessage
        { AppState.init with
          inputMessage := "why?",
          uploadedFiles := [⟨some "a.txt", none, none, none, none⟩] }
        (FetchOutcome.response false (some ⟨"", none⟩)) (fun k => ⟨k, k⟩)).1.messages =
        [] ++ [⟨0, MessageType.user, "why?", 0, none⟩, reply] ∧
      reply.type = MessageType.error :=
  (sendMessage_accepted_settles
    { AppState.init with
      inputMessage := "why?",
      uploadedFiles := [⟨some "a.txt", none, none, none, none⟩] }
    (FetchOutcome.response false (some ⟨"", none⟩)) (fun k => ⟨k, k⟩) (by decide) rfl).1

/-! ## Hydration -/

/-- C5: for every state, clock and mapping `records` of `n` documents, `loadExistingFiles`
on an OK response carrying that mapping sets the registry to exactly the `n` records of
the mapping and appends exactly one `'system'` turn with the text
"Loaded n previously uploaded file(s) from your library." when `n > 0`, and no turn when
`n = 0`.  When the request fails, the response is not OK, or its body cannot be read, the
state is left as it was: started on the initial state, the registry stays empty and the
timeline stays empty.  The mapping `{"1": {original_filename: "a.txt", size: 100}}` gives
a registry of exactly one document, displayed as "a.txt", and one system turn whose text
starts with "Loaded 1 previously uploaded file(s)". -/
theorem loadExistingFiles_hydrates (s : AppState) (clk : Nat → Tick)
    (records : List (String × DocumentRecord)) :
    ((loadExistingFiles s (.response true (some ⟨some records⟩)) clk).1.uploadedFiles
        = records.map Prod.snd ∧
      (loadExistingFiles s (.response true (some ⟨some records⟩)) clk).1.uploadedFiles.length
        = records.length ∧
      (loadExistingFiles s (.response true (some ⟨some records⟩)) clk).1.messages
        = s.messages ++
            (if records.length > 0 then [loadedTurn (clk 0) records.length] else [])) ∧
    ((loadExistingFiles s .networkError clk).1 = s ∧
      (∀ body, (loadExistingFiles s (.response false body) clk).1 = s) ∧
      (loadExistingFiles s (.response true none) clk).1 = s ∧
      (loadExistingFiles AppState.init .networkError clk).1.uploadedFiles = [] ∧
      (loadExistingFiles AppState.init .networkError clk).1.messages = [] ∧
      (∀ body, (loadExistingFiles AppState.init (.response false body) clk).1.uploadedFiles = []
        ∧ (loadExistingFiles AppState.init (.response false body) clk).1.messages = [])) ∧
    ((loadExistingFiles AppState.init
        (.response true (some ⟨some [("1", ⟨none, some "a.txt", some 100, none, none⟩)]⟩))
        clk).1.uploadedFiles = [⟨none, some "a.txt", some 100, none, none⟩] ∧
      displayName ⟨none, some "a.txt", some 100, none, none⟩ = some "a.txt" ∧
      (loadExistingFiles AppState.init
        (.response true (some ⟨some [("1", ⟨none, some "a.txt", some 100, none, none⟩)]⟩))
        clk).1.messages =
        [⟨(clk 0).now, MessageType.system,
          "Loaded 1 previously uploaded file(s)" ++ " from your library.",
          (clk 0).date, none⟩]) := by
  refine ⟨⟨?_, ?_, ?_⟩, ⟨rfl, ?_, rfl, rfl, rfl, ?_⟩, ⟨rfl, by decide, ?_⟩⟩
  · by_cases h : records.length > 0
    · simp [loadExistingFiles, loadExistingFilesSettle, h, addMessage]
    · simp [loadExistingFiles, loadExistingFilesSettle, h]
  · by_cases h : records.length > 0
    · simp [loadExistingFiles, loadExistingFilesSettle, h, addMessage]
    · simp [loadExistingFiles, loadExistingFilesSettle, h]
  · by_cases h : records.length > 0
    · simp [loadExistingFiles, loadExistingFilesSettle, h, addMessage, loadedTurn]
    · have h0 : records = [] := by
        apply List.eq_nil_of_length_eq_zero; omega
      simp [loadExistingFiles, loadExistingFilesSettle, h0]
  · intro body; cases body <;> rfl
  · intro body; cases body <;> exact ⟨rfl, rfl⟩
  · simp [loadExistingFiles, loadExistingFilesSettle, addMessage, AppState.init]
    decide

/-! ## Turn ids -/

/-- C6, the code at two uploads that both fail within the same millisecond (the clock
shows 1000 at every reading): `failed.forEach` appends two `'error'` turns that carry the
same id, so the ids of the timeline are neither unique nor strictly increasing. -/
theorem uploadFiles_same_millisecond_same_id :
    ((uploadFiles { AppState.init with files := [⟨"a.txt", 1⟩, ⟨"b.txt", 2⟩] }
        [FetchOutcome.networkError, FetchOutcome.networkError]
        (fun _ => ⟨1000, 1000⟩)).1.messages.map Message.id) = [1000, 1000] ∧
    ¬ ((uploadFiles { AppState.init with files := [⟨"a.txt", 1⟩, ⟨"b.txt", 2⟩] }
        [FetchOutcome.networkError, FetchOutcome.networkError]
        (fun _ => ⟨1000, 1000⟩)).1.messages.map Message.id).Nodup ∧
    ¬ ((uploadFiles { AppState.init with files := [⟨"a.txt", 1⟩, ⟨"b.txt", 2⟩] }
        [FetchOutcome.networkError, FetchOutcome.networkError]
        (fun _ => ⟨1000, 1000⟩)).1.messages.map Message.id).Pairwise (fun a b => a < b) := by
  decide

/-! ## The timeline is append-only -/

theorem loadExistingFilesSettle_extends (s : AppState) (o : FetchOutcome UploadedFilesBody)
    (clk : Nat → Tick) : s.messages <+: (loadExistingFilesSettle s o clk).messages := by
  cases o with
  | networkError => exact List.prefix_refl _
  | response ok body =>
    cases ok with
    | false => cases body <;> exact List.prefix_refl _
    | true =>
      cases body with
      | none => exact List.prefix_refl _
      | some data =>
        simp only [loadExistingFilesSettle]
        split
        · rw [addMessage_messages]; exact List.prefix_append _ _
        · exact List.prefix_refl _
  | nullBody ok => cases ok <;> exact List.prefix_refl _

theorem uploadFilesSettle_extends (s : AppState) (results : List UploadResult)
    (clk : Nat → Tick) : s.messages <+: (uploadFilesSettle s results clk).messages := by
  rw [uploadFilesSettle_eq]
  exact List.prefix_append _ _

theorem uploadFiles_extends (s : AppState) (outcomes : List (FetchOutcome UploadBody))
    (clk : Nat → Tick) : s.messages <+: (uploadFiles s outcomes clk).1.messages := by
  unfold uploadFiles
  split
  · exact List.prefix_refl _
  · exact uploadFilesSettle_extends { s with uploading := true } _ clk

theorem sendMessageBegin_extends (s : AppState) (t : Tick) :
    s.messages <+: (sendMessageBegin s t).1.messages := by
  unfold sendMessageBegin
  split
  · exact List.prefix_refl _
  · exact List.prefix_append _ _

theorem sendMessageSettle_extends (s : AppState) (o : FetchOutcome AskBody) (t : Tick) :
    s.messages <+: (sendMessageSettle s o t).messages := by
  cases o with
  | networkError => exact List.prefix_append _ _
  | response ok body =>
    cases ok <;> cases body <;> exact List.prefix_append _ _
  | nullBody ok => cases ok <;> exact List.prefix_append _ _

theorem sendMessage_extends (s : AppState) (o : FetchOutcome AskBody) (clk : Nat → Tick) :
    s.messages <+: (sendMessage s o clk).1.messages := by
  have hb := sendMessageBegin_extends s (clk 0)
  unfold sendMessage
  rcases h : sendMessageBegin s (clk 0) with ⟨s1, reqs, q⟩
  rw [h] at hb
  cases q with
  | none => exact hb
  | some q => exact hb.trans (sendMessageSettle_extends s1 o (clk 1))

theorem handleKeyPress_extends (s : AppState) (key : String) (shiftKey : Bool)
    (o : FetchOutcome AskBody) (clk : Nat → Tick) :
    s.messages <+: (handleKeyPress s key shiftKey o clk).1.messages := by
  unfold handleKeyPress
  split
  · exact sendMessage_extends s o clk
  · exact List.prefix_refl _

/-- C7: the timeline is append-only.  For every starting state and every operation of
the program (`addMessage`, hydration, selecting, dropping and removing pending files,
typing, `uploadFiles` and its two halves, `sendMessage`, its two halves and the gestures
that reach it, removing a registry document, clearing the registry), the timeline before
the operation is an initial segment of the timeline after it. -/
theorem timeline_append_only (s : AppState) (op : Op) :
    s.messages <+: (run s op).1.messages := by
  cases op with
  | addMessage t type content chunks => exact List.prefix_append _ _
  | loadExistingFiles o clk => exact loadExistingFilesSettle_extends s o clk
  | handleFileSelect fs => exact List.prefix_refl _
  | handleDrop fs => exact List.prefix_refl _
  | removeFile index => exact List.prefix_refl _
  | setInputMessage value => exact List.prefix_refl _
  | uploadFiles outcomes clk => exact uploadFiles_extends s outcomes clk
  | uploadFilesSettle results clk => exact uploadFilesSettle_extends s results clk
  | uploadFilesBegin =>
    simp only [run, uploadFilesBegin]
    split <;> exact List.prefix_refl _
  | sendMessage o clk => exact sendMessage_extends s o clk
  | sendMessageBegin t => exact sendMessageBegin_extends s t
  | sendMessageSettle o t => exact sendMessageSettle_extends s o t
  | handleKeyPress key shiftKey o clk => exact handleKeyPress_extends s key shiftKey o clk
  | clickSend o clk =>
    simp only [run, clickSend]
    split
    · exact List.prefix_refl _
    · exact sendMessage_extends s o clk
  | keyPressInput key shiftKey o clk => exact handleKeyPress_extends s key shiftKey o clk
  | removeUploadedFile index => exact List.prefix_refl _
  | clearUploadedFiles => exact List.prefix_refl _

/-! ## Removing a registry document -/

theorem filterNotIndex_of_gt {α : Type} (index : Nat) (xs : List α) :
    ∀ k : Nat, index < k → filterNotIndex index k xs = xs := by
  induction xs with
  | nil => intro k _; rfl
  | cons x xs ih =>
    intro k hk
    have hne : k ≠ index := by omega
    simp [filterNotIndex, hne, ih (k + 1) (by omega)]

theorem filterNotIndex_eq_eraseIdx {α : Type} (index : Nat) (xs : List α) :
    ∀ k : Nat, k ≤ index → filterNotIndex index k xs = xs.eraseIdx (index - k) := by
  induction xs with
  | nil => intro k _; rfl
  | cons x xs ih =>
    intro k hk
    by_cases hki : k = index
    · subst hki
      simp [filterNotIndex, filterNotIndex_of_gt k xs (k + 1) (by omega)]
    · have hs : index - k = (index - (k + 1)) + 1 := by omega
      rw [hs, List.eraseIdx_cons_succ]
      simp [filterNotIndex, hki, ih (k + 1) (by omega)]

/-- C8: removing the registry document at index `i` leaves the timeline, the pending
selection, the typed text and both loading flags unchanged and issues no request; the
registry it leaves is the previous one with the element at position `i` deleted and the
others kept in their order (the elements before `i` followed by the elements after `i`), one
element shorter when `i` is in range and the previous registry itself when it is not. -/
theorem removeUploadedFile_frame (s : AppState) (i : Nat) :
    (removeUploadedFile s i).2 = [] ∧
    (removeUploadedFile s i).1.messages = s.messages ∧
    (removeUploadedFile s i).1.files = s.files ∧
    (removeUploadedFile s i).1.inputMessage = s.inputMessage ∧
    (removeUploadedFile s i).1.isLoading = s.isLoading ∧
    (removeUploadedFile s i).1.uploading = s.uploading ∧
    (removeUploadedFile s i).1.uploadedFiles = s.uploadedFiles.eraseIdx i ∧
    (removeUploadedFile s i).1.uploadedFiles =
      s.uploadedFiles.take i ++ s.uploadedFiles.drop (i + 1) ∧
    (if i < s.uploadedFiles.length then
        (removeUploadedFile s i).1.uploadedFiles.length + 1 = s.uploadedFiles.length
      else (removeUploadedFile s i).1.uploadedFiles = s.uploadedFiles) := by
  have h : (removeUploadedFile s i).1.uploadedFiles = s.uploadedFiles.eraseIdx i := by
    simp [removeUploadedFile, filterNotIndex_eq_eraseIdx i s.uploadedFiles 0 (Nat.zero_le _)]
  refine ⟨rfl, rfl, rfl, rfl, rfl, rfl, h, ?_, ?_⟩
  · rw [h, List.eraseIdx_eq_take_drop_succ]
  · rw [h]
    split
    · rename_i hlt
      rw [List.length_eraseIdx_of_lt hlt]
      omega
    · rename_i hge
      exact List.eraseIdx_of_length_le (by omega)

/-! ## Upload failures: what the error turns say -/

/-- C9, the code at a single file whose upload is rejected by a response that carries no
message: a non-OK response with a body that is not JSON, and a non-OK response whose body
is the JSON value `null`.  A response was received in both cases, and the claim gives the
reason "Upload failed"; the error turn says "Network error". -/
theorem uploadFiles_unreadable_body_reason :
    (uploadFiles { AppState.init with files := [⟨"a.pdf", 1⟩] }
        [FetchOutcome.response false none] (fun _ => ⟨7, 7⟩)).1.messages.map
        (fun m => m.content) = ["Failed to upload a.pdf: Network error"] ∧
    "Failed to upload a.pdf: " ++ claimedReason (FetchOutcome.response false none)
      = "Failed to upload a.pdf: Upload failed" ∧
    (uploadFiles { AppState.init with files := [⟨"a.pdf", 1⟩] }
        [FetchOutcome.response false none] (fun _ => ⟨7, 7⟩)).1.messages.map
        (fun m => m.content) ≠
      ["Failed to upload a.pdf: " ++ claimedReason (FetchOutcome.response false none)] ∧
    (uploadFiles { AppState.init with files := [⟨"a.pdf", 1⟩] }
        [FetchOutcome.nullBody false] (fun _ => ⟨7, 7⟩)).1.messages.map
        (fun m => m.content) = ["Failed to upload a.pdf: Network error"] ∧
    "Failed to upload a.pdf: " ++ claimedReason (FetchOutcome.nullBody false)
      = "Failed to upload a.pdf: Upload failed" := by
  decide

theorem results_filter_failed (files : List File) (outcomes : List (FetchOutcome UploadBody)) :
    (List.zipWith uploadPromise files outcomes).filter (fun r => !r.success) =
      ((files.zip outcomes).filter (fun p => uploadFails p.2)).map
        (fun p => uploadPromise p.1 p.2) := by
  rw [← List.map_uncurry_zip_eq_zipWith, List.filter_map]
  congr 1
  apply List.filter_congr
  intro p _
  simp [Function.comp, Function.uncurry, uploadPromise_success]

theorem results_filter_successful (files : List File)
    (outcomes : List (FetchOutcome UploadBody)) :
    (List.zipWith uploadPromise files outcomes).filter (fun r => r.success) =
      ((files.zip outcomes).filter (fun p => !uploadFails p.2)).map
        (fun p => uploadPromise p.1 p.2) := by
  rw [← List.map_uncurry_zip_eq_zipWith, List.filter_map]
  congr 1
  apply List.filter_congr
  intro p _
  simp [Function.comp, Function.uncurry, uploadPromise_success]

/-! ## Answers and their citations -/

/-- C10: for every state, every answer `a`, every supporting-evidence list `cs` and every
clock reading, an OK `/ask` response `{answer: a, chunks_used: cs}` appends exactly one
turn, of type `'assistant'`, with content `a` and with the whole list `cs` as its
citations (same length, same order).  The source labels rendered for that turn are those
of the first `min 2 |cs|` citations only; the label of a citation is its
`metadata.file_name`, or "Unknown source" when that is missing (no `metadata`, no
`file_name`, or an empty one).  The answer "X" with
`chunks_used = [{metadata: {file_name: "a.txt"}}]` to a question asked with one document
loaded gives one assistant turn with the single citation "a.txt". -/
theorem answer_keeps_all_citations (s : AppState) (a : String) (cs : List Chunk) (t : Tick)
    (clk : Nat → Tick) :
    ((sendMessageSettle s (.response true (some ⟨a, some cs⟩)) t).messages =
        s.messages ++ [⟨t.now, MessageType.assistant, a, t.date, some cs⟩] ∧
      (⟨t.now, MessageType.assistant, a, t.date, some cs⟩ : Message).chunks = some cs) ∧
    (renderedSources ⟨t.now, MessageType.assistant, a, t.date, some cs⟩ =
        (cs.take (min 2 cs.length)).map sourceLabel ∧
      (renderedSources ⟨t.now, MessageType.assistant, a, t.date, some cs⟩).length =
        min 2 cs.length) ∧
    (∀ c : Chunk, sourceLabel c =
      match c.metadata with
      | some ⟨some name⟩ => if name = "" then "Unknown source" else name
      | some ⟨none⟩ => "Unknown source"
      | none => "Unknown source") ∧
    ((sendMessage
        { AppState.init with
          inputMessage := "q",
          uploadedFiles := [⟨some "a.txt", none, none, none, none⟩] }
        (.response true (some ⟨"X", some [⟨some ⟨some "a.txt"⟩⟩]⟩)) clk).1.messages =
        [⟨(clk 0).now, MessageType.user, "q", (clk 0).date, none⟩,
         ⟨(clk 1).now, MessageType.assistant, "X", (clk 1).date,
           some [⟨some ⟨some "a.txt"⟩⟩]⟩] ∧
      renderedSources ⟨(clk 1).now, MessageType.assistant, "X", (clk 1).date,
           some [⟨some ⟨some "a.txt"⟩⟩]⟩ = ["a.txt"]) := by
  have hr : renderedSources ⟨t.now, MessageType.assistant, a, t.date, some cs⟩ =
      (cs.take 2).map sourceLabel := by
    cases cs with
    | nil => rfl
    | cons c cs => simp [renderedSources]
  have htake : cs.take (min 2 cs.length) = cs.take 2 := by
    rcases Nat.le_total 2 cs.length with h | h
    · rw [Nat.min_eq_left h]
    · rw [Nat.min_eq_right h, List.take_of_length_le (Nat.le_refl _), List.take_of_length_le h]
  refine ⟨⟨rfl, rfl⟩, ⟨?_, ?_⟩, ?_, ?_, ?_⟩
  · rw [hr, htake]
  · rw [hr]; simp
  · intro c
    rcases c with ⟨_ | ⟨_ | name⟩⟩ <;> simp [sourceLabel, strOr]
  · have hb : trim "q" ≠ "" := by decide
    simp [sendMessage, sendMessageBegin, sendMessageSettle, addMessage, AppState.init, hb]
  · simp [renderedSources, sourceLabel, strOr]

/-! ## Settlement order does not reach the registry -/

theorem promiseAllFill_length {α : Type} (settled : List (Nat × α)) :
    ∀ values : List (Option α), (promiseAllFill values settled).length = values.length := by
  induction settled with
  | nil => intro values; rfl
  | cons x rest ih =>
    intro values
    rcases x with ⟨i, v⟩
    simp [promiseAllFill, ih]

theorem promiseAllFill_slot {α : Type} (p : List α) (order : List Nat) :
    ∀ (values : List (Option α)), values.length = p.length → ∀ j : Nat,
      (promiseAllFill values
        (order.filterMap (fun i => (p[i]?).map (fun r => (i, r)))))[j]? =
        if j ∈ order ∧ j < p.length then some p[j]? else values[j]? := by
  induction order with
  | nil => intro values _ j; simp [promiseAllFill]
  | cons i rest ih =>
    intro values hlen j
    cases hpi : p[i]? with
    | none =>
      have hge : p.length ≤ i := by
        rcases Nat.lt_or_ge i p.length with h | h
        · rw [List.getElem?_eq_getElem h] at hpi; cases hpi
        · exact h
      rw [List.filterMap_cons, hpi]
      simp only [Option.map_none']
      rw [ih values hlen j]
      by_cases hj : j < p.length
      · have hne : j ≠ i := by omega
        simp [hj, hne]
      · simp [hj]
    | some x =>
      have hlt : i < p.length := by
        rcases Nat.lt_or_ge i p.length with h | h
        · exact h
        · rw [List.getElem?_eq_none h] at hpi; cases hpi
      rw [List.filterMap_cons, hpi]
      simp only [Option.map_some', promiseAllFill]
      rw [ih (values.set i (some x)) (by simp [hlen]) j]
      by_cases hji : j = i
      · subst hji
        have hv : j < values.length := by omega
        simp [hlt, hpi, List.getElem?_set, hv]
      · have hij : i ≠ j := fun h => hji h.symm
        simp [hji, List.getElem?_set_ne hij]

theorem promiseAll_batch_order {α : Type} (p : List α) (order : List Nat)
    (hperm : order.Perm (List.range p.length)) :
    promiseAll p.length (order.filterMap (fun i => (p[i]?).map (fun r => (i, r)))) = some p := by
  have hfill : promiseAllFill (List.replicate p.length none)
      (order.filterMap (fun i => (p[i]?).map (fun r => (i, r)))) = p.map some := by
    apply List.ext_getElem?
    intro j
    rw [promiseAllFill_slot p order _ (by simp) j]
    have hmem : j ∈ order ↔ j < p.length := by
      rw [hperm.mem_iff, List.mem_range]
    by_cases hj : j < p.length
    · simp [hmem, hj, List.getElem?_eq_getElem hj]
    · have hge : p.length ≤ j := by omega
      simp [hmem, hj, List.getElem?_eq_none hge, hge]
  have hsome : (p.map some).filterMap id = p := by
    induction p with
    | nil => rfl
    | cons x xs ih => simp
  simp [promiseAll, hfill, hsome]

/-- C11, the claim fails: in a batch of two files whose uploads both succeed and of which
the second settles first, the registry receives the entry of `a.txt` before the entry of
`b.txt`, the order of the batch, where the order of settlement would put `b.txt`
first. -/
theorem uploadFiles_registry_not_in_settlement_order :
    (uploadFilesSettledIn { AppState.init with files := [⟨"a.txt", 1⟩, ⟨"b.txt", 2⟩] } [1, 0]
        [FetchOutcome.response true (some ⟨none, none, none, none, none, none⟩),
         FetchOutcome.response true (some ⟨none, none, none, none, none, none⟩)]
        (fun _ => ⟨7, 7⟩)).1.uploadedFiles =
      [⟨some "a.txt", none, none, none, none⟩, ⟨some "b.txt", none, none, none, none⟩] ∧
    entriesInSettlementOrder [⟨"a.txt", 1⟩, ⟨"b.txt", 2⟩] [1, 0]
        [FetchOutcome.response true (some ⟨none, none, none, none, none, none⟩),
         FetchOutcome.response true (some ⟨none, none, none, none, none, none⟩)] =
      [⟨some "b.txt", none, none, none, none⟩, ⟨some "a.txt", none, none, none, none⟩] ∧
    (uploadFilesSettledIn { AppState.init with files := [⟨"a.txt", 1⟩, ⟨"b.txt", 2⟩] } [1, 0]
        [FetchOutcome.response true (some ⟨none, none, none, none, none, none⟩),
         FetchOutcome.response true (some ⟨none, none, none, none, none, none⟩)]
        (fun _ => ⟨7, 7⟩)).1.uploadedFiles ≠
      [] ++ entriesInSettlementOrder [⟨"a.txt", 1⟩, ⟨"b.txt", 2⟩] [1, 0]
        [FetchOutcome.response true (some ⟨none, none, none, none, none, none⟩),
         FetchOutcome.response true (some ⟨none, none, none, none, none, none⟩)] := by
  decide

/-- While an upload of the batch has not settled, `Promise.all` has not resolved and
`uploadFiles` stays at its `await`: only `uploading` has changed. -/
theorem uploadFilesSettledIn_pending (s : AppState) (order : List Nat)
    (outcomes : List (FetchOutcome UploadBody)) (clk : Nat → Tick) (j : Nat)
    (hlen : outcomes.length = s.files.length) (hj : j < s.files.length) (hnot : j ∉ order) :
    uploadFilesSettledIn s order outcomes clk =
      ({ s with uploading := true }, s.files.map Request.upload) := by
  have hpos : ¬ s.files.length = 0 := by omega
  have hzl : (List.zipWith uploadPromise s.files outcomes).length = s.files.length := by
    simp [hlen]
  have hslot := promiseAllFill_slot (List.zipWith uploadPromise s.files outcomes) order
    (List.replicate (List.zipWith uploadPromise s.files outcomes).length none) (by simp) j
  have hnone : (promiseAllFill
      (List.replicate (List.zipWith uploadPromise s.files outcomes).length none)
      (order.filterMap (fun i =>
        ((List.zipWith uploadPromise s.files outcomes)[i]?).map (fun r => (i, r)))))[j]? =
      some none := by
    rw [hslot]
    simp [hnot, hzl, hj]
  have hmem := List.getElem?_mem hnone
  have hall : (promiseAllFill
      (List.replicate (List.zipWith uploadPromise s.files outcomes).length none)
      (order.filterMap (fun i =>
        ((List.zipWith uploadPromise s.files outcomes)[i]?).map (fun r => (i, r))))).all
      Option.isSome = false := by
    rw [List.all_eq_false]
    exact ⟨none, hmem, by simp⟩
  simp only [uploadFilesSettledIn, hpos, if_false, promiseAll, hall]
  rfl

/-- C11, amended: within one upload batch, outcomes are applied to the registry in
submission order, not settlement order.  For every state, every batch with one outcome per
file and every order in which its uploads settle (a permutation of the positions of the
batch), `Promise.all` resolves to the results in batch order, `uploadFiles` ends exactly as
it does when the uploads settle in batch order, and the successfully uploaded documents
are appended in the order of the selected files, to the registry of the call when nothing
else ran in between and to the registry of any later state the continuation runs on. -/
theorem uploadFiles_registry_in_batch_order (s : AppState) (order : List Nat)
    (outcomes : List (FetchOutcome UploadBody)) (clk : Nat → Tick)
    (hlen : outcomes.length = s.files.length)
    (hperm : order.Perm (List.range s.files.length)) :
    uploadFilesSettledIn s order outcomes clk = uploadFiles s outcomes clk ∧
    (uploadFilesSettledIn s order outcomes clk).1.uploadedFiles =
      s.uploadedFiles ++ entriesInBatchOrder s.files outcomes ∧
    promiseAll (List.zipWith uploadPromise s.files outcomes).length
        (order.filterMap (fun i =>
          ((List.zipWith uploadPromise s.files outcomes)[i]?).map (fun r => (i, r)))) =
      some (List.zipWith uploadPromise s.files outcomes) ∧
    (∀ (later : AppState) (c : Nat → Tick),
      (uploadFilesSettle later (List.zipWith uploadPromise s.files outcomes) c).uploadedFiles =
        later.uploadedFiles ++ entriesInBatchOrder s.files outcomes) := by
  have hzl : (List.zipWith uploadPromise s.files outcomes).length = s.files.length := by
    simp [hlen]
  have hall := promiseAll_batch_order (List.zipWith uploadPromise s.files outcomes) order
    (by rw [hzl]; exact hperm)
  have heq : uploadFilesSettledIn s order outcomes clk = uploadFiles s outcomes clk := by
    unfold uploadFilesSettledIn uploadFiles
    split
    · rfl
    · simp only [hall]
  have hlater : ∀ (later : AppState) (c : Nat → Tick),
      (uploadFilesSettle later (List.zipWith uploadPromise s.files outcomes) c).uploadedFiles =
        later.uploadedFiles ++ entriesInBatchOrder s.files outcomes := by
    intro later c
    simp only [uploadFilesSettle_eq, results_filter_successful, List.map_map]
    rfl
  refine ⟨heq, ?_, hall, hlater⟩
  rw [heq]
  unfold uploadFiles
  split
  · rename_i h0
    have hnil : s.files = [] := List.eq_nil_of_length_eq_zero h0
    simp [hnil, entriesInBatchOrder]
  · exact hlater { s with uploading := true } clk

/-- C11 amended, at a batch of three files of which the last settles first and the second,
rejected by the backend, settles last. -/
theorem uploadFiles_registry_in_batch_order_witness :
    (uploadFilesSettledIn
        { AppState.init with
          files := [⟨"a.txt", 1⟩, ⟨"b.txt", 2⟩, ⟨"c.txt", 3⟩],
          uploadedFiles := [⟨some "old.txt", none, none, none, none⟩] }
        [2, 0, 1]
        [FetchOutcome.response true (some ⟨none, none, none, none, none, none⟩),
         FetchOutcome.response false (some ⟨some "too big", none, none, none, none, none⟩),
         FetchOutcome.response true (some ⟨none, none, none, none, none, none⟩)]
        (fun k => ⟨k, k⟩)).1.uploadedFiles =
      [⟨some "old.txt", none, none, none, none⟩] ++
        [⟨some "a.txt", none, none, none, none⟩, ⟨some "c.txt", none, none, none, none⟩] :=
  (uploadFiles_registry_in_batch_order
    { AppState.init with
      files := [⟨"a.txt", 1⟩, ⟨"b.txt", 2⟩, ⟨"c.txt", 3⟩],
      uploadedFiles := [⟨some "old.txt", none, none, none, none⟩] }
    [2, 0, 1]
    [FetchOutcome.response true (some ⟨none, none, none, none, none, none⟩),
     FetchOutcome.response false (some ⟨some "too big", none, none, none, none, none⟩),
     FetchOutcome.response true (some ⟨none, none, none, none, none, none⟩)]
    (fun k => ⟨k, k⟩) rfl (by decide)).2.1

end DocQA
